import Mathlib

/-!
Verification development for the Twikoo EdgeOne notification dispatcher
(source file: src/node-functions/api/notify.js).

The JavaScript source is shallowly embedded: JS strings become Lean
`String` (manipulated through `List Char` where the source uses regular
expressions or index arithmetic), possibly-absent string values become
`Option String` with JS truthiness made explicit, and every external
side effect (SMTP verify, SMTP send, pushoo push, Tencent moderation,
Akismet, the QQ avatar HTTP lookup, the md5 and sha256 library calls)
is resolved by an explicit environment `Env` while the calls themselves
are recorded in an effect trace `List Effect`.  A returned `Bool` flag
in a notification attempt records whether the attempt rejected (threw):
`true` means the promise rejected.
-/

set_option maxHeartbeats 1000000
set_option linter.unusedVariables false

namespace TwikooNotify

/-- JS truthiness for a possibly-absent string value: `undefined`/`null`
and the empty string are falsy, every other string is truthy. -/
def truthyS : Option String → Bool
  | none => false
  | some s => s != ""

/-- JS string coercion of a possibly-absent string (`String(undefined)`
and template interpolation both yield the text `"undefined"`). -/
def jsToStr : Option String → String
  | none => "undefined"
  | some s => s

/-- JS `a || b` where the fallback `b` is already a string. -/
def jsOrStr (a : Option String) (b : String) : String :=
  if truthyS a then jsToStr a else b

/-- JS `String.prototype.trim`: drop leading and trailing whitespace. -/
def jsTrim (l : List Char) : List Char :=
  ((l.dropWhile Char.isWhitespace).reverse.dropWhile Char.isWhitespace).reverse

/-- `normalizeMail` from the source: `String(mail).trim().toLowerCase()`. -/
def normalizeMail (mail : String) : String :=
  String.mk ((jsTrim mail.toList).map Char.toLower)

/-- `equalsMail(mail1, mail2)` from the source: falsy on either side gives
`false`, otherwise the normalized strings are compared. -/
def equalsMail (m1 m2 : Option String) : Bool :=
  if !truthyS m1 || !truthyS m2 then false
  else normalizeMail (jsToStr m1) == normalizeMail (jsToStr m2)

/-- Shape test for the regex `^[1-9][0-9]{4,10}$`: 5 to 11 characters,
all digits, first digit nonzero. -/
def qqNumShape (ds : List Char) : Bool :=
  match ds with
  | [] => false
  | d :: _ =>
    decide ('1' ≤ d) && decide (d ≤ '9') && ds.all Char.isDigit &&
      decide (5 ≤ ds.length) && decide (ds.length ≤ 11)

/-- Shape test for the tail of the regex `@qq.com` with the `i` flag and
an UNESCAPED dot: the character written `.` matches any character. -/
def qqSuffixMatch : List Char → Bool
  | [a, q1, q2, _, c1, o1, m1] =>
    a == '@' && q1.toLower == 'q' && q2.toLower == 'q' &&
      c1.toLower == 'c' && o1.toLower == 'o' && m1.toLower == 'm'
  | _ => false

/-- Matcher for `^[1-9][0-9]{4,10}@qq.com$/i` (unescaped dot): a maximal
digit prefix of valid shape followed by the seven-character tail. -/
def isQQmailChars (l : List Char) : Bool :=
  qqNumShape (l.takeWhile Char.isDigit) && qqSuffixMatch (l.dropWhile Char.isDigit)

/-- `isQQ(mail)` from the source: either regex accepts. -/
def isQQ (mail : String) : Bool :=
  qqNumShape mail.toList || isQQmailChars mail.toList

/-- `isQQ` applied to a possibly-absent mail field; JS coerces `undefined`
to the text `"undefined"` before the regex test, which both regexes
reject, so this agrees with the source. -/
def isQQO (mail : Option String) : Bool :=
  isQQ (jsToStr mail)

/-- JS `url.indexOf(c)` on the character level: index of the first
occurrence, `none` when absent. -/
def jsIndexOf : List Char → Char → Option Nat
  | [], _ => none
  | c :: cs, t => if c == t then some 0 else (jsIndexOf cs t).map (· + 1)

/-- `appendHashToUrl(url, hash)` from the source: no `#` in `url` appends
`#hash`; otherwise the part of `url` up to the first `#` is kept and
`#hash` replaces the rest. -/
def appendHashToUrl (url hash : String) : String :=
  match jsIndexOf url.toList '#' with
  | none => url ++ "#" ++ hash
  | some i => String.mk (url.toList.take i) ++ "#" ++ hash

/-- Prefix test on character lists (used by the literal-pattern
replacement that models a `/literal/g` regex replace). -/
def isPre : List Char → List Char → Bool
  | [], _ => true
  | _ :: _, [] => false
  | a :: as, b :: bs => a == b && isPre as bs

/-- Leftmost, non-overlapping, global replacement of the literal pattern
`pat` by `rep`, the semantics of `String.prototype.replace` with a
global regex whose pattern is a literal (the `\$\x7bNAME\x7d`
placeholders of the mail templates).  The `fuel` argument makes the
recursion structural; every step consumes at least one character, so
`fuel = length` is exact. -/
def replaceAllFuel (pat rep : List Char) : Nat → List Char → List Char
  | _, [] => []
  | 0, l => l
  | fuel + 1, c :: rest =>
    if !pat.isEmpty && isPre pat (c :: rest) then
      rep ++ replaceAllFuel pat rep fuel (List.drop pat.length (c :: rest))
    else
      c :: replaceAllFuel pat rep fuel rest

def replaceAll (pat rep s : List Char) : List Char :=
  replaceAllFuel pat rep s.length s

/-- String-level wrapper for `replaceAll`. -/
def jsReplaceAll (s pat rep : String) : String :=
  String.mk (replaceAll pat.toList rep.toList s.toList)

/-- Scan for the `>` closing a tag: the regex `<[^>]*>` matches up to the
first `>` after the `<`; `none` when no `>` follows. -/
def dropTag : List Char → Option (List Char)
  | [] => none
  | c :: rest => if c == '>' then some rest else dropTag rest

/-- Global removal of `<[^>]*>` matches, the body of `stripHtml` before
trimming: at a `<` with a later `>`, the bracketed run is dropped and
scanning resumes after it; a `<` with no closing `>` is kept.  The
`dropTag` target is strictly shorter than the scanned rest, so
`fuel = length` is again exact. -/
def stripTagsFuel : Nat → List Char → List Char
  | _, [] => []
  | 0, l => l
  | fuel + 1, c :: rest =>
    if c == '<' then
      match dropTag rest with
      | some rest2 => stripTagsFuel fuel rest2
      | none => c :: stripTagsFuel fuel rest
    else c :: stripTagsFuel fuel rest

def stripTags (l : List Char) : List Char :=
  stripTagsFuel l.length l

/-- `stripHtml(html)` from the source: remove `<[^>]*>` globally, then
trim. -/
def stripHtml (html : String) : String :=
  String.mk (jsTrim (stripTags html.toList))

/-- The response codes of the source (`RES_CODE`). -/
def RES_CODE.SUCCESS : Nat := 0

def RES_CODE.FAIL : Nat := 1000

def RES_CODE.NEED_LOGIN : Nat := 1024

def RES_CODE.FORBIDDEN : Nat := 1403

/-- A comment record as supplied by the upstream storage layer.  String
fields that the source may find absent are `Option String`; `idAlt`
models the `_id` field; `isSpam` models the truthiness of the JS
`isSpam` flag. -/
structure Comment where
  nick : String := ""
  mail : Option String := none
  mailMd5 : Option String := none
  ip : String := ""
  ua : String := ""
  link : Option String := none
  avatar : Option String := none
  comment : String := ""
  href : Option String := none
  url : Option String := none
  id : Option String := none
  idAlt : Option String := none
  pid : Option String := none
  rid : Option String := none
  isSpam : Bool := false
deriving DecidableEq

/-- The flat configuration mapping; every key is a possibly-absent
string. -/
structure Config where
  SMTP_USER : Option String := none
  SMTP_PASS : Option String := none
  SMTP_SERVICE : Option String := none
  SMTP_HOST : Option String := none
  SMTP_PORT : Option String := none
  SMTP_SECURE : Option String := none
  SENDER_NAME : Option String := none
  SENDER_EMAIL : Option String := none
  BLOGGER_EMAIL : Option String := none
  SITE_NAME : Option String := none
  SITE_URL : Option String := none
  MAIL_SUBJECT : Option String := none
  MAIL_SUBJECT_ADMIN : Option String := none
  MAIL_TEMPLATE : Option String := none
  MAIL_TEMPLATE_ADMIN : Option String := none
  PUSHOO_CHANNEL : Option String := none
  PUSHOO_TOKEN : Option String := none
  SC_MAIL_NOTIFY : Option String := none
  NOTIFY_SPAM : Option String := none
  GRAVATAR_CDN : Option String := none
  DEFAULT_GRAVATAR : Option String := none
  QCLOUD_SECRET_ID : Option String := none
  QCLOUD_SECRET_KEY : Option String := none
  QCLOUD_CMS_BIZTYPE : Option String := none
  AKISMET_KEY : Option String := none
deriving DecidableEq

/-- One external side effect attempted by the embedded code.  `mailSent`
records an SMTP send attempt (recipient and HTML body), `pushSent` a
pushoo submission (title and content), the three provider effects a
spam-provider interaction, `qqInvoke` the argument handed to the
`getQQAvatar` helper, and `qqHttp` the `uin` parameter of the avatar
HTTP lookup inside that helper. -/
inductive Effect where
  | mailSent (dest : String) (html : String)
  | pushSent (title : String) (content : String)
  | tencentCheck
  | akismetVerify
  | akismetCheck
  | qqInvoke (arg : String)
  | qqHttp (uin : String)
deriving DecidableEq

/-- Outcomes of the external world for one invocation: SMTP verify and
send results, whether the pushoo promise resolves, the Tencent
moderation result (`error` = the inner try caught a failure), the
Akismet verify and check results (`error` = the call threw), the value
of `result.data?.url || null` for the QQ avatar lookup, and the md5 and
sha256 library functions. -/
structure Env where
  smtpVerifyOk : Bool
  sendMailOk : Bool
  pushooOk : Bool
  tencentResult : Except Unit String
  akismetVerifyRes : Except Unit Bool
  akismetCheckRes : Except Unit Bool
  qqAvatarUrl : Option String
  md5f : String → String
  sha256f : String → String

/-- `getMailMd5(comment)` from the source. -/
def getMailMd5 (c : Comment) (env : Env) : String :=
  if truthyS c.mailMd5 then jsToStr c.mailMd5
  else if truthyS c.mail then env.md5f (normalizeMail (jsToStr c.mail))
  else env.md5f c.nick

/-- `getMailSha256(comment)` from the source. -/
def getMailSha256 (c : Comment) (env : Env) : String :=
  if truthyS c.mail then env.sha256f (normalizeMail (jsToStr c.mail))
  else env.sha256f c.nick

/-- `getAvatar(comment, config)` from the source. -/
def getAvatar (c : Comment) (cfg : Config) (env : Env) : String :=
  if truthyS c.avatar then jsToStr c.avatar
  else
    let gravatarCdn := jsOrStr cfg.GRAVATAR_CDN "weavatar.com"
    let defaultGravatar :=
      if truthyS cfg.DEFAULT_GRAVATAR then jsToStr cfg.DEFAULT_GRAVATAR
      else "initials&name=" ++ c.nick
    let mailHash :=
      if gravatarCdn == "cravatar.cn" then getMailMd5 c env else getMailSha256 c env
    "https://" ++ gravatarCdn ++ "/avatar/" ++ mailHash ++ "?d=" ++ defaultGravatar

/-- The permalink used by both mail bodies and the push message:
`appendHashToUrl(comment.href || SITE_URL + comment.url, comment.id ||
comment._id)`.  When `href` is falsy and BOTH `SITE_URL` and
`comment.url` are `undefined`, the JS sum `SITE_URL + comment.url` is
the number `NaN`, and `url.indexOf('#')` inside `appendHashToUrl`
throws a TypeError (numbers have no `indexOf`); `none` models that
thrown error, which escapes the notification attempt (there is no
try/catch around this line in any of the three attempts).  In every
other case the JS `+` coerces the defined side(s) to a string and the
computation returns a string. -/
def postUrlOf (c : Comment) (cfg : Config) : Option String :=
  if truthyS c.href then
    some (appendHashToUrl (jsToStr c.href) (jsOrStr c.id (jsToStr c.idAlt)))
  else
    match cfg.SITE_URL, c.url with
    | none, none => none
    | _, _ =>
      some (appendHashToUrl (jsToStr cfg.SITE_URL ++ jsToStr c.url)
        (jsOrStr c.id (jsToStr c.idAlt)))

/-- `initMailer(config)` with `throwErr = false` (the flavor used by the
notification path): `false` when SMTP credentials or server settings
are structurally missing or the live verification fails, `true` when
the transport verifies.  The source also stores the created transport
in the module-global `transporter`; the notification functions below
take the pre-call state of that global as the `tr : Bool` argument
(non-null or not), which is the only part of it they consult. -/
def initMailer (cfg : Config) (env : Env) : Bool :=
  if !truthyS cfg.SMTP_USER || !truthyS cfg.SMTP_PASS then false
  else if truthyS cfg.SMTP_SERVICE then env.smtpVerifyOk
  else if truthyS cfg.SMTP_HOST then env.smtpVerifyOk
  else false

/-- The eight-step `.replace(/\$\x7bNAME\x7d/g, VALUE)` chain applied to
`config.MAIL_TEMPLATE_ADMIN` in `noticeMaster`, in source order. -/
def renderAdminTemplate (tpl SITE_URL SITE_NAME NICK IMG IP MAIL COMMENT POST_URL : String) :
    String :=
  jsReplaceAll (jsReplaceAll (jsReplaceAll (jsReplaceAll (jsReplaceAll (jsReplaceAll
    (jsReplaceAll (jsReplaceAll tpl "${SITE_URL}" SITE_URL) "${SITE_NAME}" SITE_NAME)
    "${NICK}" NICK) "${IMG}" IMG) "${IP}" IP) "${MAIL}" MAIL) "${COMMENT}" COMMENT)
    "${POST_URL}" POST_URL

/-- The nine-step `.replace` chain applied to `config.MAIL_TEMPLATE` in
`noticeReply`, in source order. -/
def renderReplyTemplate
    (tpl IMG PARENT_IMG SITE_URL SITE_NAME PARENT_NICK PARENT_COMMENT NICK COMMENT POST_URL :
      String) : String :=
  jsReplaceAll (jsReplaceAll (jsReplaceAll (jsReplaceAll (jsReplaceAll (jsReplaceAll
    (jsReplaceAll (jsReplaceAll (jsReplaceAll tpl "${IMG}" IMG) "${PARENT_IMG}" PARENT_IMG)
    "${SITE_URL}" SITE_URL) "${SITE_NAME}" SITE_NAME) "${PARENT_NICK}" PARENT_NICK)
    "${PARENT_COMMENT}" PARENT_COMMENT) "${NICK}" NICK) "${COMMENT}" COMMENT)
    "${POST_URL}" POST_URL

/-- The built-in HTML fallback body of `noticeMaster` (the template
literal of the source, with its interpolations made explicit). -/
def adminFallbackHtml (SITE_URL SITE_NAME NICK COMMENT POST_URL : String) : String :=
  "\n      <div style=\"border-top:2px solid #12addb;box-shadow:0 1px 3px #aaaaaa;line-height:180%;padding:0 15px 12px;margin:50px auto;font-size:12px;\">\n        <h2 style=\"border-bottom:1px solid #dddddd;font-size:14px;font-weight:normal;padding:13px 0 10px 8px;\">\n          您在<a style=\"text-decoration:none;color: #12addb;\" href=\"" ++
    SITE_URL ++ "\" target=\"_blank\">" ++ SITE_NAME ++
    "</a>上的文章有了新的评论\n        </h2>\n        <p><strong>" ++ NICK ++
    "</strong>回复说：</p>\n        <div style=\"background-color: #f5f5f5;padding: 10px 15px;margin:18px 0;word-wrap:break-word;\">" ++
    COMMENT ++
    "</div>\n        <p>您可以点击<a style=\"text-decoration:none; color:#12addb\" href=\"" ++
    POST_URL ++ "\" target=\"_blank\">查看回复的完整內容</a><br></p>\n      </div>"

/-- The built-in HTML fallback body of `noticeReply`. -/
def replyFallbackHtml (SITE_URL SITE_NAME PARENT_NICK PARENT_COMMENT NICK COMMENT POST_URL :
    String) : String :=
  "\n      <div style=\"border-top:2px solid #12ADDB;box-shadow:0 1px 3px #AAAAAA;line-height:180%;padding:0 15px 12px;margin:50px auto;font-size:12px;\">\n        <h2 style=\"border-bottom:1px solid #dddddd;font-size:14px;font-weight:normal;padding:13px 0 10px 8px;\">\n          您在<a style=\"text-decoration:none;color: #12ADDB;\" href=\"" ++
    SITE_URL ++ "\" target=\"_blank\">" ++ SITE_NAME ++
    "</a>上的评论有了新的回复\n        </h2>\n        " ++ PARENT_NICK ++
    " 同学，您曾发表评论：\n        <div style=\"padding:0 12px 0 12px;margin-top:18px\">\n          <div style=\"background-color: #f5f5f5;padding: 10px 15px;margin:18px 0;word-wrap:break-word;\">" ++
    PARENT_COMMENT ++ "</div>\n          <p><strong>" ++ NICK ++
    "</strong>回复说：</p>\n          <div style=\"background-color: #f5f5f5;padding: 10px 15px;margin:18px 0;word-wrap:break-word;\">" ++
    COMMENT ++
    "</div>\n          <p>\n            您可以点击<a style=\"text-decoration:none; color:#12addb\" href=\"" ++
    POST_URL ++ "\" target=\"_blank\">查看回复的完整內容</a>，\n            欢迎再次光临<a style=\"text-decoration:none; color:#12addb\" href=\"" ++
    SITE_URL ++ "\" target=\"_blank\">" ++ SITE_NAME ++
    "</a>。<br>\n          </p>\n        </div>\n      </div>"

/-- `noticeMaster(comment, config)` from the source.  Result: whether
the attempt rejected, plus the attempted effects.  The SMTP send is
wrapped in try/catch (its error is stored in `sendResult`), so the only
way the attempt rejects is the unguarded permalink TypeError
(`postUrlOf = none`), which is thrown before any send.  `tr` is the
pre-call state of the global `transporter`. -/
def noticeMaster (tr : Bool) (c : Comment) (cfg : Config) (env : Env) : Bool × List Effect :=
  if !(tr || initMailer cfg env) then (false, [])
  else if equalsMail cfg.BLOGGER_EMAIL c.mail then (false, [])
  else if (truthyS cfg.PUSHOO_CHANNEL && truthyS cfg.PUSHOO_TOKEN) &&
      !(cfg.SC_MAIL_NOTIFY == some "true") then (false, [])
  else
    match postUrlOf c cfg with
    | none => (true, [])
    | some POST_URL =>
      let SITE_NAME := jsToStr cfg.SITE_NAME
      let NICK := c.nick
      let IMG := getAvatar c cfg env
      let IP := c.ip
      let MAIL := jsToStr c.mail
      let COMMENT := c.comment
      let SITE_URL := jsToStr cfg.SITE_URL
      let emailContent :=
        if truthyS cfg.MAIL_TEMPLATE_ADMIN then
          renderAdminTemplate (jsToStr cfg.MAIL_TEMPLATE_ADMIN)
            SITE_URL SITE_NAME NICK IMG IP MAIL COMMENT POST_URL
        else adminFallbackHtml SITE_URL SITE_NAME NICK COMMENT POST_URL
      (false,
        [Effect.mailSent (jsOrStr cfg.BLOGGER_EMAIL (jsToStr cfg.SENDER_EMAIL)) emailContent])

/-- `noticeReply(currentComment, config, parentComment)` from the
source.  Like `noticeMaster`, the send is guarded, so the attempt
rejects only on the unguarded permalink TypeError. -/
def noticeReply (tr : Bool) (c : Comment) (cfg : Config) (pc : Option Comment) (env : Env) :
    Bool × List Effect :=
  if !truthyS c.pid then (false, [])
  else
    match pc with
    | none => (false, [])
    | some p =>
      if !(tr || initMailer cfg env) then (false, [])
      else if equalsMail cfg.BLOGGER_EMAIL p.mail then (false, [])
      else if equalsMail c.mail p.mail then (false, [])
      else
        match postUrlOf c cfg with
        | none => (true, [])
        | some POST_URL =>
          let PARENT_NICK := p.nick
          let IMG := getAvatar c cfg env
          let PARENT_IMG := getAvatar p cfg env
          let SITE_NAME := jsToStr cfg.SITE_NAME
          let NICK := c.nick
          let COMMENT := c.comment
          let PARENT_COMMENT := p.comment
          let SITE_URL := jsToStr cfg.SITE_URL
          let emailContent :=
            if truthyS cfg.MAIL_TEMPLATE then
              renderReplyTemplate (jsToStr cfg.MAIL_TEMPLATE)
                IMG PARENT_IMG SITE_URL SITE_NAME PARENT_NICK PARENT_COMMENT NICK COMMENT
                POST_URL
            else
              replyFallbackHtml SITE_URL SITE_NAME PARENT_NICK PARENT_COMMENT NICK COMMENT
                POST_URL
          (false, [Effect.mailSent (jsToStr p.mail) emailContent])

/-- `noticePushoo(comment, config)` from the source.  Nothing in this
function is wrapped in a try/catch: the attempt rejects (first
component `true`) either on the permalink TypeError — thrown before the
push call, so no push effect occurs — or when the push gateway call
itself rejects (the push was submitted). -/
def noticePushoo (c : Comment) (cfg : Config) (env : Env) : Bool × List Effect :=
  if !(truthyS cfg.PUSHOO_CHANNEL && truthyS cfg.PUSHOO_TOKEN) then (false, [])
  else if equalsMail cfg.BLOGGER_EMAIL c.mail then (false, [])
  else
    match postUrlOf c cfg with
    | none => (true, [])
    | some POST_URL =>
      let SITE_NAME := jsToStr cfg.SITE_NAME
      let NICK := c.nick
      let MAIL := jsToStr c.mail
      let IP := c.ip
      let COMMENT := stripHtml c.comment
      let subject := jsOrStr cfg.MAIL_SUBJECT_ADMIN (SITE_NAME ++ "有新评论了")
      let content :=
        "评论人：" ++ NICK ++ " ([" ++ MAIL ++ "](mailto:" ++ MAIL ++ "))\n\n评论人IP：" ++ IP ++
          "\n\n评论内容：" ++ COMMENT ++ "\n\n原文链接：[" ++ POST_URL ++ "](" ++ POST_URL ++ ")"
      (!env.pushooOk, [Effect.pushSent subject content])

/-- The `Promise.all` join inside `sendNotice`, before its `.catch`:
first component is whether the join rejected (some attempt rejected),
second the effects of all three attempts (a rejection does not cancel
the sibling attempts). -/
def fanOutJoin (tr : Bool) (c : Comment) (cfg : Config) (pc : Option Comment) (env : Env) :
    Bool × List Effect :=
  let m := noticeMaster tr c cfg env
  let r := noticeReply tr c cfg pc env
  let p := noticePushoo c cfg env
  (m.1 || r.1 || p.1, m.2 ++ r.2 ++ p.2)

/-- `sendNotice(comment, config, parentComment)` from the source: the
spam-suppression entry check, then the fan-out whose rejection (if any)
is absorbed by `.catch`; the caller only ever observes the effects. -/
def sendNotice (tr : Bool) (c : Comment) (cfg : Config) (pc : Option Comment) (env : Env) :
    List Effect :=
  if c.isSpam && (cfg.NOTIFY_SPAM == some "false") then []
  else (fanOutJoin tr c cfg pc env).2

/-- `postCheckSpam(comment, config)` from the source: pre-flagged spam
is honored, owner comments are exempt, otherwise one provider is chosen
by configuration; `none` models the `undefined` verdict (provider
failure, invalid Akismet key, or no provider configured).  The outer
try/catch of the source never fires in this embedding because every
fallible call is already absorbed where the source absorbs it. -/
def postCheckSpam (c : Comment) (cfg : Config) (env : Env) : Option Bool × List Effect :=
  if c.isSpam then (some true, [])
  else if equalsMail cfg.BLOGGER_EMAIL c.mail then (some false, [])
  else if truthyS cfg.QCLOUD_SECRET_ID && truthyS cfg.QCLOUD_SECRET_KEY then
    match env.tencentResult with
    | Except.ok sug => (some (sug != "Pass"), [Effect.tencentCheck])
    | Except.error _ => (none, [Effect.tencentCheck])
  else if truthyS cfg.AKISMET_KEY then
    match env.akismetVerifyRes with
    | Except.error _ => (none, [Effect.akismetVerify])
    | Except.ok false => (none, [Effect.akismetVerify])
    | Except.ok true =>
      match env.akismetCheckRes with
      | Except.error _ => (none, [Effect.akismetVerify, Effect.akismetCheck])
      | Except.ok b => (some b, [Effect.akismetVerify, Effect.akismetCheck])
  else (none, [])

/-- The suffix strip of `handleGetQQAvatar` and `handlePostSubmit`:
`mail.replace(/@qq\.com$/i, '')` — anchored, case-insensitive, with the
dot ESCAPED, so only a literal trailing `@qq.com` is removed. -/
def stripQQSuffix (l : List Char) : List Char :=
  if decide (7 ≤ l.length) &&
      ((l.drop (l.length - 7)).map Char.toLower == "@qq.com".toList) then
    l.take (l.length - 7)
  else l

/-- Head test for one match of `/@qq.com/ig` (unescaped dot): `@qq`, any
one character, then `com`, case-insensitively. -/
def qqComAt : List Char → Bool
  | a :: q1 :: q2 :: _ :: c1 :: o1 :: m1 :: _ =>
    a == '@' && q1.toLower == 'q' && q2.toLower == 'q' &&
      c1.toLower == 'c' && o1.toLower == 'o' && m1.toLower == 'm'
  | _ => false

/-- The global replace `qq.replace(/@qq.com/ig, '')` inside
`getQQAvatar`: every leftmost match of the unescaped-dot pattern is
deleted (each step consumes at least one character, so `fuel = length`
is exact). -/
def stripQQcomFuel : Nat → List Char → List Char
  | _, [] => []
  | 0, l => l
  | fuel + 1, c :: rest =>
    if qqComAt (c :: rest) then stripQQcomFuel fuel (List.drop 7 (c :: rest))
    else c :: stripQQcomFuel fuel rest

def stripQQcomGlobal (l : List Char) : List Char :=
  stripQQcomFuel l.length l

/-- `getQQAvatar(qq)` from the source: strips `/@qq.com/ig` from its
argument, performs the avatar HTTP lookup with the result as `uin`, and
returns `result.data?.url || null`; any failure is caught inside and
yields `null`. -/
def getQQAvatar (qq : String) (env : Env) : Option String × List Effect :=
  let qqNum := String.mk (stripQQcomGlobal qq.toList)
  (match env.qqAvatarUrl with
   | some u => if u == "" then none else some u
   | none => none,
   [Effect.qqHttp qqNum])

/-- The JSON object returned by `handlePostSubmit`. -/
structure SubmitRes where
  code : Nat
  isSpam : Option Bool
  avatar : Option String
deriving DecidableEq

/-- `handlePostSubmit({comment, config, parentComment})` from the
source, for a structurally valid request (typed `comment`/`config`):
the QQ-avatar step (guarded, its helper also absorbs failures), the
spam check (skipped when the comment is pre-flagged), the notification
fan-out (absorbs all failures), then the success-shaped response.  The
outer catch of the source never fires because every step absorbs its
own failures. -/
def handlePostSubmit (tr : Bool) (c : Comment) (cfg : Config) (pc : Option Comment)
    (env : Env) : SubmitRes × List Effect :=
  let qqFetch : Option String × List Effect :=
    if !truthyS c.avatar && isQQO c.mail then
      let qqNumber := String.mk (stripQQSuffix (jsToStr c.mail).toList)
      let fetched := getQQAvatar qqNumber env
      (match fetched.1 with
       | some u => some u
       | none => c.avatar,
       Effect.qqInvoke qqNumber :: fetched.2)
    else (c.avatar, [])
  let c1 := { c with avatar := qqFetch.1 }
  let spamStep : Option Bool × List Effect :=
    if c1.isSpam then (some true, [])
    else postCheckSpam c1 cfg env
  let noticeEffects := sendNotice tr c1 cfg pc env
  ({ code := RES_CODE.SUCCESS, isSpam := spamStep.1, avatar := c1.avatar },
   qqFetch.2 ++ spamStep.2 ++ noticeEffects)

/-- The JSON object returned by `handleGetQQAvatar`. -/
structure QQRes where
  code : Nat
  avatar : Option String
  message : Option String
deriving DecidableEq

/-- `handleGetQQAvatar({mail})` from the source: FAIL when `isQQ`
rejects, otherwise the anchored escaped-dot suffix strip, the call to
`getQQAvatar` with the stripped value, and a SUCCESS response.  The
argument handed to `getQQAvatar` is recorded as `Effect.qqInvoke`. -/
def handleGetQQAvatar (mail : String) (env : Env) : QQRes × List Effect :=
  if !isQQ mail then
    ({ code := RES_CODE.FAIL, avatar := none, message := some "不是 QQ 邮箱" }, [])
  else
    let qqNumber := String.mk (stripQQSuffix mail.toList)
    let fetched := getQQAvatar qqNumber env
    ({ code := RES_CODE.SUCCESS, avatar := fetched.1, message := none },
     Effect.qqInvoke qqNumber :: fetched.2)

/-- Which effects are spam-provider interactions. -/
def isProviderEffect : Effect → Bool
  | Effect.tencentCheck => true
  | Effect.akismetVerify => true
  | Effect.akismetCheck => true
  | _ => false

/-! Concrete fixtures used by counterexamples and witnesses. -/

/-- An environment in which every external call fails. -/
def envAllFail : Env where
  smtpVerifyOk := false
  sendMailOk := false
  pushooOk := false
  tencentResult := Except.error ()
  akismetVerifyRes := Except.error ()
  akismetCheckRes := Except.error ()
  qqAvatarUrl := none
  md5f := fun _ => ""
  sha256f := fun _ => ""

/-- An environment in which every external call succeeds. -/
def envAllOk : Env where
  smtpVerifyOk := true
  sendMailOk := true
  pushooOk := true
  tencentResult := Except.ok "Pass"
  akismetVerifyRes := Except.ok true
  akismetCheckRes := Except.ok false
  qqAvatarUrl := some "https://q.example/face.png"
  md5f := fun _ => "m"
  sha256f := fun _ => "s"

/-- A configuration with SMTP, owner mail, and a push channel set. -/
def cfgFull : Config where
  SMTP_USER := some "smtpuser"
  SMTP_PASS := some "smtppass"
  SMTP_SERVICE := some "QQ"
  SENDER_NAME := some "Sender"
  SENDER_EMAIL := some "sender@example.com"
  BLOGGER_EMAIL := some "owner@example.com"
  SITE_NAME := some "Site"
  SITE_URL := some "https://site.example"
  PUSHOO_CHANNEL := some "bark"
  PUSHOO_TOKEN := some "token1"

/-- `cfgFull` without a push channel. -/
def cfgNoPush : Config :=
  { cfgFull with PUSHOO_CHANNEL := none, PUSHOO_TOKEN := none }

/-- A comment by the owner (same mail up to trim and case). -/
def ownerComment : Comment where
  nick := "Owner"
  mail := some " Owner@Example.com "
  ip := "1.2.3.4"
  comment := "hi"
  href := some "https://site.example/post"
  id := some "cid1"

/-- A comment by a regular visitor. -/
def visitorComment : Comment where
  nick := "Alice"
  mail := some "alice@example.com"
  ip := "5.6.7.8"
  comment := "<p>hello</p>"
  href := some "https://site.example/post"
  id := some "cid2"

/-- An owner comment already flagged as spam. -/
def spamOwnerComment : Comment :=
  { ownerComment with isSpam := true }

/-- A visitor comment already flagged as spam. -/
def spamComment : Comment :=
  { visitorComment with isSpam := true }

/-- `cfgFull` with no owner email configured. -/
def cfgNoOwner : Config :=
  { cfgFull with BLOGGER_EMAIL := none }

/-- `cfgFull` with neither owner email nor push channel configured. -/
def cfgNoPushNoOwner : Config :=
  { cfgFull with BLOGGER_EMAIL := none, PUSHOO_CHANNEL := none, PUSHOO_TOKEN := none }

/-- A reply by a visitor (parent reference set). -/
def replyComment : Comment :=
  { visitorComment with pid := some "cid9", rid := some "cid9" }

/-- A parent comment by a second visitor. -/
def parentComment : Comment where
  nick := "Bob"
  mail := some "bob@example.com"
  ip := "9.9.9.9"
  comment := "first"
  href := some "https://site.example/post"
  id := some "cid9"

/-- A parent comment whose mail is the owner mail. -/
def parentOwner : Comment :=
  { parentComment with mail := some "owner@example.com" }

/-- A parent comment whose mail equals the mail of `replyComment`. -/
def parentSelf : Comment :=
  { parentComment with mail := some "alice@example.com" }

/-- A visitor comment with neither `href` nor `url`: together with a
configuration lacking `SITE_URL`, the permalink computation throws. -/
def noUrlComment : Comment where
  nick := "Alice"
  mail := some "alice@example.com"
  ip := "5.6.7.8"
  comment := "hi"

/-- Mail-only configuration (no push channel) without `SITE_URL`. -/
def cfgMailNoSite : Config :=
  { cfgNoPush with SITE_URL := none }

/-- Push-enabled configuration without `SITE_URL`. -/
def cfgPushNoSite : Config :=
  { cfgFull with SITE_URL := none }

/-! ## Helper lemmas -/

theorem noticeMaster_filter_provider (tr : Bool) (c : Comment) (cfg : Config) (env : Env) :
    ((noticeMaster tr c cfg env).2.filter isProviderEffect) = [] := by
  unfold noticeMaster
  split
  · rfl
  · split
    · rfl
    · split
      · rfl
      · split
        · rfl
        · simp [isProviderEffect]

theorem noticeReply_filter_provider (tr : Bool) (c : Comment) (cfg : Config)
    (pc : Option Comment) (env : Env) :
    ((noticeReply tr c cfg pc env).2.filter isProviderEffect) = [] := by
  unfold noticeReply
  split
  · rfl
  · split
    · rfl
    · split
      · rfl
      · split
        · rfl
        · split
          · rfl
          · split
            · rfl
            · simp [isProviderEffect]

theorem noticePushoo_filter_provider (c : Comment) (cfg : Config) (env : Env) :
    ((noticePushoo c cfg env).2.filter isProviderEffect) = [] := by
  unfold noticePushoo
  split
  · rfl
  · split
    · rfl
    · split
      · rfl
      · simp [isProviderEffect]

theorem sendNotice_filter_provider (tr : Bool) (c : Comment) (cfg : Config)
    (pc : Option Comment) (env : Env) :
    ((sendNotice tr c cfg pc env).filter isProviderEffect) = [] := by
  unfold sendNotice fanOutJoin
  split
  · rfl
  · simp [List.filter_append, noticeMaster_filter_provider, noticeReply_filter_provider,
      noticePushoo_filter_provider]

theorem jsIndexOf_eq_none_iff (l : List Char) (t : Char) :
    jsIndexOf l t = none ↔ t ∉ l := by
  induction l with
  | nil => simp [jsIndexOf]
  | cons c cs ih =>
    by_cases hc : c = t
    · subst hc
      simp [jsIndexOf]
    · simp [jsIndexOf, hc, Option.map_eq_none, ih]
      intro h
      exact fun heq => hc heq.symm

theorem jsIndexOf_take (t : Char) : ∀ (l : List Char) (i : Nat), jsIndexOf l t = some i →
    l.take i = l.takeWhile (fun c => !(c == t)) := by
  intro l
  induction l with
  | nil => intro i h; simp [jsIndexOf] at h
  | cons c cs ih =>
    intro i h
    by_cases hc : c = t
    · subst hc
      simp [jsIndexOf] at h
      subst h
      simp [List.takeWhile]
    · simp [jsIndexOf, hc] at h
      obtain ⟨j, hj, hij⟩ := h
      subst hij
      have hbe : (c == t) = false := by simp [hc]
      simp [List.take_succ_cons, List.takeWhile_cons, hbe]
      exact ih j hj

/-! ## Claims -/

/-- C1: for every structurally valid `postSubmit` request (typed
comment and config), `handlePostSubmit` returns a response whose code
is SUCCESS (0), for every transporter state and every behavior of the
external world — in particular when spam classification and every
notification attempt fail; notification failures never abort the
request. -/
theorem postSubmit_always_success (tr : Bool) (c : Comment) (cfg : Config)
    (pc : Option Comment) (env : Env) :
    (handlePostSubmit tr c cfg pc env).1.code = RES_CODE.SUCCESS ∧ RES_CODE.SUCCESS = 0 :=
  ⟨rfl, rfl⟩

/-- C2 counterexample: with a push channel and token configured, a
non-owner commenter, and a pushoo call that fails, the push attempt
itself rejects (first component `true`): its internal error is NOT
caught inside the attempt, contrary to the claim that each of the three
attempts catches its internal errors within itself. -/
theorem pushoo_attempt_rejects_cex :
    (noticePushoo visitorComment cfgFull envAllFail).1 = true ∧
      (noticePushoo visitorComment cfgFull envAllFail).2 ≠ [] := by
  constructor
  · decide
  · decide

/-- C2 amended: the SMTP send failures inside the owner and reply
attempts are caught within the attempt — those two attempts reject only
when the permalink computation throws its TypeError (`postUrlOf =
none`); the push attempt rejects either on that same TypeError or when
its unguarded pushoo call fails; every rejection that reaches the
fan-out join is caught once at the fan-out level (`sendNotice`'s
`.catch`), so nothing propagates to the caller. -/
theorem fanout_rejection_sources (tr : Bool) (c : Comment) (cfg : Config)
    (pc : Option Comment) (env : Env) :
    ((noticeMaster tr c cfg env).1 = true → postUrlOf c cfg = none) ∧
      ((noticeReply tr c cfg pc env).1 = true → postUrlOf c cfg = none) ∧
      ((noticePushoo c cfg env).1 = true →
        postUrlOf c cfg = none ∨ env.pushooOk = false) ∧
      (fanOutJoin tr c cfg pc env).1 =
        ((noticeMaster tr c cfg env).1 || (noticeReply tr c cfg pc env).1 ||
          (noticePushoo c cfg env).1) ∧
      sendNotice tr c cfg pc env =
        (if c.isSpam && (cfg.NOTIFY_SPAM == some "false") then []
         else (fanOutJoin tr c cfg pc env).2) := by
  refine ⟨?_, ?_, ?_, rfl, rfl⟩
  · intro hmt
    unfold noticeMaster at hmt
    split at hmt
    · exact absurd hmt (by simp)
    · split at hmt
      · exact absurd hmt (by simp)
      · split at hmt
        · exact absurd hmt (by simp)
        · revert hmt
          cases hpu : postUrlOf c cfg with
          | none => intro _; rfl
          | some url => intro hmt; exact absurd hmt (by simp)
  · intro hmt
    unfold noticeReply at hmt
    split at hmt
    · exact absurd hmt (by simp)
    · split at hmt
      · exact absurd hmt (by simp)
      · split at hmt
        · exact absurd hmt (by simp)
        · split at hmt
          · exact absurd hmt (by simp)
          · split at hmt
            · exact absurd hmt (by simp)
            · revert hmt
              cases hpu : postUrlOf c cfg with
              | none => intro _; rfl
              | some url => intro hmt; exact absurd hmt (by simp)
  · intro hmt
    unfold noticePushoo at hmt
    split at hmt
    · exact absurd hmt (by simp)
    · split at hmt
      · exact absurd hmt (by simp)
      · revert hmt
        cases hpu : postUrlOf c cfg with
        | none => intro _; exact Or.inl rfl
        | some url =>
          intro hmt
          refine Or.inr ?_
          simpa using hmt

/-- C2 witness: the permalink TypeError makes the owner attempt reject
(comment without `href`/`url` under a configuration without
`SITE_URL`), and a failing pushoo call makes the push attempt reject;
each rejection is covered by the corresponding implication of the
theorem. -/
theorem fanout_rejection_sources_witness :
    (noticeMaster true noUrlComment cfgMailNoSite envAllOk).1 = true ∧
      postUrlOf noUrlComment cfgMailNoSite = none ∧
      (noticePushoo visitorComment cfgFull envAllFail).1 = true ∧
      (postUrlOf visitorComment cfgFull = none ∨ envAllFail.pushooOk = false) :=
  ⟨by decide,
    (fanout_rejection_sources true noUrlComment cfgMailNoSite none envAllOk).1 (by decide),
    by decide,
    (fanout_rejection_sources true visitorComment cfgFull none envAllFail).2.2.1 (by decide)⟩

/-- C7: permalink construction.  When the url contains `#`, the result
is the prefix of the url up to the first `#`, then `#` and the new
hash; when it does not, the result is `url + "#" + hash`; in
particular `"https://x/y#old"` with id `"abc"` gives
`"https://x/y#abc"`. -/
theorem appendHashToUrl_spec (url hash : String) :
    (('#' ∈ url.toList) →
      (appendHashToUrl url hash).toList =
        url.toList.takeWhile (fun c => !(c == '#')) ++ '#' :: hash.toList) ∧
    (('#' ∉ url.toList) → appendHashToUrl url hash = url ++ "#" ++ hash) ∧
    appendHashToUrl "https://x/y#old" "abc" = "https://x/y#abc" ∧
    appendHashToUrl "https://x/y" "abc" = "https://x/y" ++ "#" ++ "abc" := by
  refine ⟨?_, ?_, by decide, by decide⟩
  · intro hmem
    unfold appendHashToUrl
    cases heq : jsIndexOf url.toList '#' with
    | none =>
      exact absurd ((jsIndexOf_eq_none_iff url.toList '#').mp heq) (by simpa using hmem)
    | some i =>
      have ht := jsIndexOf_take '#' url.toList i heq
      simp only [String.toList]
      show (String.mk (url.toList.take i)).data ++ "#".data ++ hash.data =
        url.data.takeWhile (fun c => !(c == '#')) ++ '#' :: hash.data
      rw [ht]
      simp [String.toList]
  · intro hmem
    unfold appendHashToUrl
    rw [(jsIndexOf_eq_none_iff url.toList '#').mpr hmem]

/-- C7 witness: the general statement applied at the concrete inputs of
the claim. -/
theorem appendHashToUrl_spec_witness :
    ('#' ∈ "https://x/y#old".toList) ∧
      (appendHashToUrl "https://x/y#old" "abc").toList =
        "https://x/y#old".toList.takeWhile (fun c => !(c == '#')) ++ '#' :: "abc".toList :=
  ⟨by decide, (appendHashToUrl_spec "https://x/y#old" "abc").1 (by decide)⟩

/-- C8: the owner-notification template renderer replaces every
occurrence of each named placeholder with its value and nothing else:
`"Hi ${NICK}, ${COMMENT}"` with nick `"Bob"` and comment `"hello"`
renders exactly `"Hi Bob, hello"`, and an unnamed token `${OTHER}` is
left untouched. -/
theorem admin_template_substitution :
    renderAdminTemplate "Hi ${NICK}, ${COMMENT}" "https://s" "Site" "Bob" "img.png"
        "1.2.3.4" "bob@example.com" "hello" "https://s/p#cid" = "Hi Bob, hello" ∧
      renderAdminTemplate "Hi ${NICK}, ${OTHER} ${COMMENT}" "https://s" "Site" "Bob"
        "img.png" "1.2.3.4" "bob@example.com" "hello" "https://s/p#cid" =
        "Hi Bob, ${OTHER} hello" := by
  constructor
  · decide
  · decide

/-- C3 counterexample: an owner comment that is already flagged
`isSpam` makes `postCheckSpam` return `true`, not the claimed
not-spam `false` — the pre-flag branch precedes the owner-exemption
branch. -/
theorem owner_spamflag_cex :
    equalsMail cfgFull.BLOGGER_EMAIL spamOwnerComment.mail = true ∧
      (postCheckSpam spamOwnerComment cfgFull envAllOk).1 = some true := by
  constructor
  · decide
  · decide

/-- C3 amended: for every comment whose normalized email equals the
configured owner email AND whose `isSpam` flag is not already set, no
owner notification email is sent, no instant-message push is sent, and
`postCheckSpam` short-circuits to `some false` with no provider call. -/
theorem owner_comment_exemptions (tr : Bool) (c : Comment) (cfg : Config) (env : Env)
    (hown : equalsMail cfg.BLOGGER_EMAIL c.mail = true) (hflag : c.isSpam = false) :
    (noticeMaster tr c cfg env).2 = [] ∧ (noticePushoo c cfg env).2 = [] ∧
      postCheckSpam c cfg env = (some false, []) := by
  refine ⟨?_, ?_, ?_⟩
  · unfold noticeMaster
    rw [hown]
    simp
  · unfold noticePushoo
    rw [hown]
    simp
  · unfold postCheckSpam
    rw [hown, hflag]
    simp

/-- C3 witness: the amended claim at a concrete owner comment (mail
differing from the configured owner mail by case and surrounding
whitespace only). -/
theorem owner_comment_exemptions_witness :
    equalsMail cfgFull.BLOGGER_EMAIL ownerComment.mail = true ∧ ownerComment.isSpam = false ∧
      ((noticeMaster false ownerComment cfgFull envAllFail).2 = [] ∧
        (noticePushoo ownerComment cfgFull envAllFail).2 = [] ∧
        postCheckSpam ownerComment cfgFull envAllFail = (some false, [])) :=
  ⟨by decide, by decide,
    owner_comment_exemptions false ownerComment cfgFull envAllFail (by decide) (by decide)⟩

/-- C4: `noticeReply` sends no email in each of the four skip
scenarios: the comment has no `pid`; the parent comment is absent; the
parent mail equals the configured owner mail; the commenter mail
equals the parent mail. -/
theorem reply_skip_scenarios (tr : Bool) (c : Comment) (cfg : Config) (pc : Option Comment)
    (p : Comment) (env : Env) :
    (truthyS c.pid = false → noticeReply tr c cfg pc env = (false, [])) ∧
      noticeReply tr c cfg none env = (false, []) ∧
      (equalsMail cfg.BLOGGER_EMAIL p.mail = true →
        noticeReply tr c cfg (some p) env = (false, [])) ∧
      (equalsMail c.mail p.mail = true →
        noticeReply tr c cfg (some p) env = (false, [])) := by
  refine ⟨?_, ?_, ?_, ?_⟩
  · intro h
    unfold noticeReply
    rw [h]
    simp
  · unfold noticeReply
    split
    · rfl
    · rfl
  · intro h
    unfold noticeReply
    simp [h]
  · intro h
    unfold noticeReply
    simp [h]

/-- C4 witness: each scenario at concrete inputs in which every other
send-precondition holds (transporter available, SMTP fine, distinct
mails, parent present where the scenario allows). -/
theorem reply_skip_scenarios_witness :
    (truthyS visitorComment.pid = false ∧
        noticeReply true visitorComment cfgFull (some parentComment) envAllOk = (false, [])) ∧
      noticeReply true replyComment cfgFull none envAllOk = (false, []) ∧
      (equalsMail cfgFull.BLOGGER_EMAIL parentOwner.mail = true ∧
        noticeReply true replyComment cfgFull (some parentOwner) envAllOk = (false, [])) ∧
      (equalsMail replyComment.mail parentSelf.mail = true ∧
        noticeReply true replyComment cfgFull (some parentSelf) envAllOk = (false, [])) :=
  ⟨⟨by decide,
      (reply_skip_scenarios true visitorComment cfgFull (some parentComment) parentComment
        envAllOk).1 (by decide)⟩,
    (reply_skip_scenarios true replyComment cfgFull none parentComment envAllOk).2.1,
    ⟨by decide,
      (reply_skip_scenarios true replyComment cfgFull (some parentOwner) parentOwner
        envAllOk).2.2.1 (by decide)⟩,
    ⟨by decide,
      (reply_skip_scenarios true replyComment cfgFull (some parentSelf) parentSelf
        envAllOk).2.2.2 (by decide)⟩⟩

/-- C5: a comment whose `isSpam` flag is already set classifies as spam
with no provider call (`postCheckSpam` takes its first branch), and
`handlePostSubmit` performs no spam-provider interaction at all for
such a comment (it does not even call `postCheckSpam`). -/
theorem preflagged_spam_no_provider (tr : Bool) (c : Comment) (cfg : Config)
    (pc : Option Comment) (env : Env) (h : c.isSpam = true) :
    postCheckSpam c cfg env = (some true, []) ∧
      ((handlePostSubmit tr c cfg pc env).2.filter isProviderEffect) = [] := by
  constructor
  · unfold postCheckSpam
    rw [h]
    simp
  · by_cases hqq : (!truthyS c.avatar && isQQO c.mail) = true
    · simp [handlePostSubmit, hqq, h, getQQAvatar, isProviderEffect,
        sendNotice_filter_provider, List.filter_append]
    · simp only [Bool.not_eq_true] at hqq
      simp [handlePostSubmit, hqq, h, isProviderEffect, sendNotice_filter_provider,
        List.filter_append]

/-- C5 witness: the theorem at a concrete pre-flagged comment. -/
theorem preflagged_spam_no_provider_witness :
    spamComment.isSpam = true ∧
      (postCheckSpam spamComment cfgFull envAllOk = (some true, []) ∧
        ((handlePostSubmit true spamComment cfgFull (some parentComment) envAllOk).2.filter
          isProviderEffect) = []) :=
  ⟨by decide,
    preflagged_spam_no_provider true spamComment cfgFull (some parentComment) envAllOk
      (by decide)⟩

/-- C6 counterexample: with channel and token configured,
`SC_MAIL_NOTIFY` unset and a non-owner commenter, the push does NOT
proceed when the comment has no `href`/`url` and no `SITE_URL` is
configured: `noticePushoo` throws the permalink TypeError before its
push call (no push effect, the attempt rejects), refuting the claim
that the push still proceeds whenever those configuration conditions
hold. -/
theorem push_no_url_cex :
    truthyS cfgPushNoSite.PUSHOO_CHANNEL = true ∧ truthyS cfgPushNoSite.PUSHOO_TOKEN = true ∧
      (cfgPushNoSite.SC_MAIL_NOTIFY == some "true") = false ∧
      equalsMail cfgPushNoSite.BLOGGER_EMAIL noUrlComment.mail = false ∧
      (noticePushoo noUrlComment cfgPushNoSite envAllOk).2 = [] ∧
      (noticePushoo noUrlComment cfgPushNoSite envAllOk).1 = true := by
  refine ⟨by decide, by decide, by decide, by decide, by decide, by decide⟩

/-- C6 amended: with a push channel and token configured and
`SC_MAIL_NOTIFY` not equal to the string `"true"`, the owner email
notification is skipped while the instant-message push still proceeds
for a non-owner commenter, provided the permalink computation does not
throw (the comment has a truthy `href`, or `SITE_URL` and
`comment.url` are not both undefined). -/
theorem push_priority_permalink_ok (tr : Bool) (c : Comment) (cfg : Config) (env : Env)
    (h1 : truthyS cfg.PUSHOO_CHANNEL = true) (h2 : truthyS cfg.PUSHOO_TOKEN = true)
    (h3 : (cfg.SC_MAIL_NOTIFY == some "true") = false)
    (h4 : equalsMail cfg.BLOGGER_EMAIL c.mail = false)
    (h5 : postUrlOf c cfg ≠ none) :
    (noticeMaster tr c cfg env).2 = [] ∧ (noticePushoo c cfg env).2 ≠ [] := by
  constructor
  · unfold noticeMaster
    rw [h1, h2, h3, h4]
    simp
  · cases hpu : postUrlOf c cfg with
    | none => exact absurd hpu h5
    | some url =>
      unfold noticePushoo
      rw [h1, h2, h4, hpu]
      simp

/-- C6 witness: the amended theorem at a concrete visitor comment under
`cfgFull` (channel `bark`, token set, `SC_MAIL_NOTIFY` unset, comment
with an `href`). -/
theorem push_priority_permalink_ok_witness :
    truthyS cfgFull.PUSHOO_CHANNEL = true ∧ truthyS cfgFull.PUSHOO_TOKEN = true ∧
      (cfgFull.SC_MAIL_NOTIFY == some "true") = false ∧
      equalsMail cfgFull.BLOGGER_EMAIL visitorComment.mail = false ∧
      postUrlOf visitorComment cfgFull ≠ none ∧
      ((noticeMaster true visitorComment cfgFull envAllOk).2 = [] ∧
        (noticePushoo visitorComment cfgFull envAllOk).2 ≠ []) :=
  ⟨by decide, by decide, by decide, by decide, by decide,
    push_priority_permalink_ok true visitorComment cfgFull envAllOk (by decide) (by decide)
      (by decide) (by decide) (by decide)⟩

/-- C9: `equalsMail` is `false` whenever either argument is absent or
empty; consequently, with no configured owner email (or no comment
mail), the owner exemption of `postCheckSpam` does not fire (the
verdict stays undetermined when no provider is configured, instead of
the owner branch's `some false`), `noticeMaster` does not take the
owner self-notification skip, and `noticePushoo` does not take the
owner skip.  Observably: when the attempt survives the unrelated
permalink TypeError (`postUrlOf ≠ none`), the owner mail and the push
are actually sent. -/
theorem equalsMail_absent_guards (m1 m2 : Option String) (tr : Bool) (c : Comment)
    (cfg : Config) (env : Env) :
    ((truthyS m1 = false ∨ truthyS m2 = false) → equalsMail m1 m2 = false) ∧
      ((truthyS cfg.BLOGGER_EMAIL = false ∨ truthyS c.mail = false) →
        (c.isSpam = false → truthyS cfg.QCLOUD_SECRET_ID = false →
          truthyS cfg.AKISMET_KEY = false → postCheckSpam c cfg env = (none, [])) ∧
        (tr = true → truthyS cfg.PUSHOO_CHANNEL = false → postUrlOf c cfg ≠ none →
          (noticeMaster tr c cfg env).2 ≠ []) ∧
        (truthyS cfg.PUSHOO_CHANNEL = true → truthyS cfg.PUSHOO_TOKEN = true →
          postUrlOf c cfg ≠ none → (noticePushoo c cfg env).2 ≠ [])) := by
  have hgen : ∀ (a b : Option String), (truthyS a = false ∨ truthyS b = false) →
      equalsMail a b = false := by
    intro a b hab
    rcases hab with h | h <;> simp [equalsMail, h]
  refine ⟨hgen m1 m2, ?_⟩
  intro hcase
  have hEq : equalsMail cfg.BLOGGER_EMAIL c.mail = false := hgen _ _ hcase
  refine ⟨?_, ?_, ?_⟩
  · intro hflag hq ha
    unfold postCheckSpam
    rw [hflag, hEq, hq, ha]
    simp
  · intro htr hpc h5
    subst htr
    cases hpu : postUrlOf c cfg with
    | none => exact absurd hpu h5
    | some url =>
      unfold noticeMaster
      rw [hEq, hpc, hpu]
      simp
  · intro h1 h2 h5
    cases hpu : postUrlOf c cfg with
    | none => exact absurd hpu h5
    | some url =>
      unfold noticePushoo
      rw [h1, h2, hEq, hpu]
      simp

/-- C9 witness: the theorem at concrete inputs — no owner email
configured, a visitor comment with a mail field and an `href`, no spam
provider. -/
theorem equalsMail_absent_guards_witness :
    equalsMail none (some "alice@example.com") = false ∧
      postCheckSpam visitorComment cfgNoOwner envAllOk = (none, []) ∧
      (noticeMaster true visitorComment cfgNoPushNoOwner envAllOk).2 ≠ [] ∧
      (noticePushoo visitorComment cfgNoOwner envAllOk).2 ≠ [] := by
  refine ⟨?_, ?_, ?_, ?_⟩
  · exact (equalsMail_absent_guards none (some "alice@example.com") true visitorComment
      cfgNoOwner envAllOk).1 (Or.inl (by decide))
  · exact ((equalsMail_absent_guards none none true visitorComment cfgNoOwner
      envAllOk).2 (Or.inl (by decide))).1 (by decide) (by decide) (by decide)
  · exact ((equalsMail_absent_guards none none true visitorComment cfgNoPushNoOwner
      envAllOk).2 (Or.inl (by decide))).2.1 rfl (by decide) (by decide)
  · exact ((equalsMail_absent_guards none none true visitorComment cfgNoOwner
      envAllOk).2 (Or.inl (by decide))).2.2 (by decide) (by decide) (by decide)

/-- C10: the unescaped dot of the second `isQQ` regex accepts
`"12345@qqxcom"`; for that input the `getQQAvatar` action returns
SUCCESS (not FAIL), and the avatar-lookup helper is invoked with the
full unstripped string (not a numeric id), since `handleGetQQAvatar`
strips only a literal `@qq.com` suffix; the unescaped-dot global
replace inside the helper then reduces the `uin` of the HTTP call to
`"12345"`. -/
theorem qq_unescaped_dot_accept (env : Env) :
    isQQ "12345@qqxcom" = true ∧
      (handleGetQQAvatar "12345@qqxcom" env).1.code = RES_CODE.SUCCESS ∧
      RES_CODE.SUCCESS ≠ RES_CODE.FAIL ∧
      (handleGetQQAvatar "12345@qqxcom" env).2 =
        Effect.qqInvoke "12345@qqxcom" :: (getQQAvatar "12345@qqxcom" env).2 ∧
      ("12345@qqxcom".toList.all Char.isDigit) = false ∧
      (getQQAvatar "12345@qqxcom" env).2 = [Effect.qqHttp "12345"] := by
  have hq : isQQ "12345@qqxcom" = true := by decide
  refine ⟨hq, ?_, by decide, ?_, by decide, ?_⟩
  · simp [handleGetQQAvatar, hq]
  · simp [handleGetQQAvatar, hq]
    have hX : String.mk
        (stripQQSuffix ['1', '2', '3', '4', '5', '@', 'q', 'q', 'x', 'c', 'o', 'm']) =
        "12345@qqxcom" := by decide
    rw [hX]
    exact ⟨rfl, rfl⟩
  · simp [getQQAvatar]
    decide

end TwikooNotify
